import Mathlib

set_option maxRecDepth 8000
set_option maxHeartbeats 1600000

/-! Verification of the Cloudflare blog worker (src/index.js, schema.sql).

The worker code is embedded shallowly: each JavaScript function that the
claims touch is translated into a Lean definition over explicit state.
The D1 database tables become Lean lists of rows, the Workers KV
namespaces become association lists with absolute expiry times, and
every `await` on a store operation that can fail is an `Except` bind, so
a rejected promise propagates exactly as the un-caught JS exception
would.  Wall-clock time is passed in explicitly (`JSDate` readings and a
`now` counter in seconds).
-/

deriving instance DecidableEq for Except

/-! Part 1 of the embedding: post identifiers (generatePostId, generateUniquePostId). -/

/-- JS `String.prototype.padStart n c`: left-pad with `c` up to length `n`
(no-op when the string is already long enough). -/
def padStart (s : String) (n : Nat) (c : Char) : String :=
  ⟨List.replicate (n - s.data.length) c ++ s.data⟩

/-- The decimal digit pair of a two-digit number, most significant first. -/
def twoDigitChars (m : Nat) : List Char :=
  [Nat.digitChar (m / 10), Nat.digitChar (m % 10)]

/-- A `new Date()` reading, seen through the getters used by
`generatePostId` (JS semantics: `getMonth` is 0-based, `getDate` is the
1-based day of month). -/
structure JSDate where
  getFullYear : Nat
  getMonth : Nat
  getDate : Nat
  getHours : Nat
  getMinutes : Nat
  getSeconds : Nat
deriving DecidableEq

/-- Field ranges that a real wall-clock reading satisfies (the current
era has 4-digit years). -/
def JSDate.Valid (d : JSDate) : Prop :=
  1000 ≤ d.getFullYear ∧ d.getFullYear ≤ 9999 ∧ d.getMonth ≤ 11 ∧
    1 ≤ d.getDate ∧ d.getDate ≤ 31 ∧ d.getHours ≤ 23 ∧
    d.getMinutes ≤ 59 ∧ d.getSeconds ≤ 59

instance (d : JSDate) : Decidable d.Valid := by
  unfold JSDate.Valid; infer_instance

/-- Chronological rank of a reading: readings taken later in real time
have a larger `key` (field-lexicographic, matching calendar order). -/
def JSDate.key (d : JSDate) : Nat :=
  ((((d.getFullYear * 100 + (d.getMonth + 1)) * 100 + d.getDate) * 100
      + d.getHours) * 100 + d.getMinutes) * 100 + d.getSeconds

/-- Lines 29-40 of src/index.js: `generatePostId`, the timestamp-based
id `yyyymmddhhmmss` built from the current wall clock. -/
def generatePostId (now : JSDate) : String :=
  let year := toString now.getFullYear
  let month := padStart (toString (now.getMonth + 1)) 2 '0'
  let day := padStart (toString now.getDate) 2 '0'
  let hours := padStart (toString now.getHours) 2 '0'
  let minutes := padStart (toString now.getMinutes) 2 '0'
  let seconds := padStart (toString now.getSeconds) 2 '0'
  year ++ month ++ day ++ hours ++ minutes ++ seconds

/-- Lines 45-58 of src/index.js: `generateUniquePostId`.  The D1 query
`SELECT id FROM posts WHERE id = ?` is membership in `db`, the list of
existing post ids.  On a hit the JS code awaits a one-second `setTimeout`
and recurses; the wait is modelled by moving to the next wall-clock
reading `clock (k + 1)`.  The JS recursion is unbounded, so the embedding
carries explicit `fuel`. -/
def generateUniquePostId (db : List String) (clock : Nat → JSDate) (k : Nat) :
    Nat → Option String
  | 0 => none
  | fuel + 1 =>
    let postId := generatePostId (clock k)
    if postId ∈ db then generateUniquePostId db clock (k + 1) fuel
    else some postId

/-! Part 2 of the embedding: the Workers KV model, the environment, the rate limiter. -/

/-- One stored value of a Workers KV namespace together with its absolute
expiry time in seconds: `put` with `expirationTtl t` at time `now`
records expiry `now + t`, and the entry is no longer returned once `now`
reaches it. -/
structure KVEntry (α : Type) where
  value : α
  expiresAt : Nat
deriving DecidableEq

/-- A Workers KV namespace holding values of type `α`.  `available :=
false` models the backing store being unreachable: every operation on it
fails, and the rejected promise propagates out of the un-guarded `await`
in the worker. -/
structure KVNamespace (α : Type) where
  available : Bool
  store : List (String × KVEntry α)
deriving DecidableEq

/-- Failure of a KV operation. -/
inductive KVError
  | unavailable
deriving DecidableEq

/-- KV `get` at time `now`: the most recent binding of `key`, unless it
has expired. -/
def KVNamespace.get (ns : KVNamespace α) (key : String) (now : Nat) :
    Except KVError (Option α) :=
  if ns.available then
    match ns.store.lookup key with
    | some e => .ok (if now < e.expiresAt then some e.value else none)
    | none => .ok none
  else .error .unavailable

/-- KV `put` with `expirationTtl := ttl` at time `now`: replaces any
previous binding of `key`. -/
def KVNamespace.put (ns : KVNamespace α) (key : String) (v : α) (ttl now : Nat) :
    Except KVError (KVNamespace α) :=
  if ns.available then
    .ok { ns with store := (key, ⟨v, now + ttl⟩) :: ns.store.filter (fun p => p.1 != key) }
  else .error .unavailable

/-- The session record stored by the OAuth callback (src/index.js lines
480-484): the `JSON.parse` of the stored `JSON.stringify` round-trips, so
the namespace is modelled as holding the record itself. -/
structure Session where
  email : String
  name : String
  picture : String
deriving DecidableEq

/-- The worker environment bindings the claims depend on.  A missing
binding (`wrangler.toml` does not configure it) is `none`; the falsy
check `!env.ALLOWED_EMAIL` also covers the empty string, so a configured
allow-list address is a `some` of a non-empty string. -/
structure Env where
  RATE_LIMIT_KV : Option (KVNamespace String)
  SESSION_KV : Option (KVNamespace Session)
  ALLOWED_EMAIL : Option String
deriving DecidableEq

/-- Accumulator of the leading decimal-digit run of a character list. -/
def parseIntAux (acc : Nat) : List Char → Nat
  | [] => acc
  | c :: rest => if c.isDigit then parseIntAux (acc * 10 + (c.toNat - 48)) rest else acc

/-- JS `parseInt` on the canonical decimal strings this worker stores:
the value of the leading run of digits (0, standing in for NaN, when
there is none — NaN compares false against 100 just as 0 does). -/
def parseInt (s : String) : Nat :=
  parseIntAux 0 s.data

/-- JS truthiness of a nullable string: `null` and the empty string are
falsy. -/
def truthy : Option String → Bool
  | none => false
  | some s => !(s == "")

/-- JS `parseInt(count)` where `count` may be null (only ever used behind
a truthiness guard, as in the source). -/
def optParseInt : Option String → Nat
  | none => 0
  | some s => parseInt s

/-- Lines 84-98 of src/index.js: `checkRateLimit`.  Returns the allow
decision together with the updated environment (the put-back KV
namespace); a failing store operation propagates as `.error`. -/
def checkRateLimit (ip : String) (env : Env) (now : Nat) :
    Except KVError (Bool × Env) :=
  match env.RATE_LIMIT_KV with
  | none => .ok (true, env)
  | some kv =>
    let key := "ratelimit:" ++ ip
    match kv.get key now with
    | .error e => .error e
    | .ok count =>
      if truthy count && decide (optParseInt count > 100) then
        .ok (false, env)
      else
        let newCount := if truthy count then optParseInt count + 1 else 1
        match kv.put key (toString newCount) 3600 now with
        | .error e => .error e
        | .ok kv2 => .ok (true, { env with RATE_LIMIT_KV := some kv2 })

/-- Outcomes of `n` consecutive requests from client `ip`, all inside the
same window (same `now`), threading the KV state through
`checkRateLimit`; a store failure stops the sequence. -/
def runCalls (ip : String) (now : Nat) : Nat → Env → List Bool × Env
  | 0, env => ([], env)
  | n + 1, env =>
    match checkRateLimit ip env now with
    | .ok (b, env2) =>
      let rest := runCalls ip now n env2
      (b :: rest.1, rest.2)
    | .error _ => ([], env)

/-! Part 3 of the embedding: the bot filter and the gate portion of `fetch`. -/

/-- Lines 9-19 of src/index.js. -/
def BLOCKED_BOTS : List String :=
  ["GPTBot", "CCBot", "anthropic-ai", "Claude-Web", "ChatGPT-User",
   "cohere-ai", "Google-Extended", "FacebookBot", "Bytespider"]

/-- JS `String.prototype.toLowerCase` (ASCII range, which covers every
signature in `BLOCKED_BOTS`). -/
def strToLower (s : String) : String :=
  ⟨s.data.map Char.toLower⟩

/-- Substring occurrence on character lists, scanning every start
position. -/
def containsSubAux (t : List Char) : List Char → Bool
  | [] => t.isEmpty
  | c :: rest => t.isPrefixOf (c :: rest) || containsSubAux t rest

/-- JS `String.prototype.includes`. -/
def strIncludes (s t : String) : Bool :=
  containsSubAux t.data s.data

/-- Lines 74-79 of src/index.js: `isBlockedBot`. -/
def isBlockedBot (userAgent : String) : Bool :=
  if userAgent == "" then false
  else BLOCKED_BOTS.any (fun bot => strIncludes (strToLower userAgent) (strToLower bot))

/-- The parts of an incoming `Request` read by the gate and by
`isAuthenticated`: `url.pathname` plus the `user-agent`,
`cf-connecting-ip` and `Cookie` headers (a header that is absent is
`none`). -/
structure Request where
  pathname : String
  userAgent : Option String
  ip : Option String
  cookie : Option String
deriving DecidableEq

/-- An HTTP response as far as the gate builds one: status, body, and
the `Retry-After` header if set. -/
structure GateResponse where
  status : Nat
  body : String
  retryAfter : Option String
deriving DecidableEq

/-- Result of the gate portion of `fetch` (src/index.js lines
3215-3238): either a short-circuit response, the `robots.txt` handler
(which runs before every check), a store failure that propagates, or
control proceeding into routing with the updated environment. -/
inductive GateResult
  | response (r : GateResponse)
  | robotsTxt
  | failed (e : KVError)
  | proceed (env : Env)
deriving DecidableEq

/-- Lines 3215-3238 of src/index.js: the checks `fetch` performs before
any routing, in source order: `/robots.txt` short-circuit, bot filter
(403), rate limit (429 with `Retry-After: 3600`). -/
def fetchGate (req : Request) (env : Env) (now : Nat) : GateResult :=
  if req.pathname = "/robots.txt" then .robotsTxt
  else
    let userAgent := req.userAgent.getD ""
    if isBlockedBot userAgent then .response ⟨403, "Access denied", none⟩
    else
      let ip := req.ip.getD "unknown"
      match checkRateLimit ip env now with
      | .error e => .failed e
      | .ok (allowed, env2) =>
        if !allowed then .response ⟨429, "Too many requests", some "3600"⟩
        else .proceed env2

/-! Part 4 of the embedding: sessions and the authorization gate. -/

/-- First match of the regex `session=([^;]+)` in a character list: at
each start position, try to match the literal `session=` followed by at
least one non-semicolon character; the capture is the maximal run of
non-semicolon characters. -/
def regexSessionMatch : List Char → Option (List Char)
  | [] => none
  | c :: rest =>
    if ("session=".data).isPrefixOf (c :: rest) then
      let cap := ((c :: rest).drop 8).takeWhile (fun ch => !(ch == ';'))
      if cap.isEmpty then regexSessionMatch rest else some cap
    else regexSessionMatch rest

/-- Lines 188-194 of src/index.js: `getSessionFromCookie` (the `Cookie`
header matched against `/session=([^;]+)/`). -/
def getSessionFromCookie (req : Request) : Option String :=
  match req.cookie with
  | none => none
  | some cookie =>
    if cookie == "" then none
    else (regexSessionMatch cookie.data).map (fun l => ⟨l⟩)

/-- Lines 171-175 of src/index.js: `getSession` (the lookup under
`session:` prefix; a missing namespace or empty id yields null). -/
def getSession (env : Env) (sessionId : String) (now : Nat) :
    Except KVError (Option Session) :=
  match env.SESSION_KV with
  | none => .ok none
  | some kv =>
    if sessionId == "" then .ok none
    else
      match kv.get ("session:" ++ sessionId) now with
      | .error e => .error e
      | .ok data => .ok data

/-- Lines 199-213 of src/index.js: `isAuthenticated`. -/
def isAuthenticated (req : Request) (env : Env) (now : Nat) :
    Except KVError Bool :=
  match getSessionFromCookie req with
  | none => .ok false
  | some sessionId =>
    match getSession env sessionId now with
    | .error e => .error e
    | .ok none => .ok false
    | .ok (some session) =>
      match env.ALLOWED_EMAIL with
      | some allowedEmail =>
        if session.email != allowedEmail then .ok false else .ok true
      | none => .ok true

/-! Part 5 of the embedding: the posts table and pinning. -/

/-- A row of the `posts` table, restricted to the columns the pin and
like handlers read or write. -/
structure PostRow where
  id : String
  content : String
  is_pinned : Bool
deriving DecidableEq

/-- Response of the pin handler. -/
inductive PinResponse
  | success (is_pinned : Bool)
  | badRequest (msg : String)
deriving DecidableEq

/-- Lines 947-976 of src/index.js: `handleTogglePin` on the posts table.
The body field `is_pinned` is `none` when absent or not a boolean (the
`typeof` check fails, 400).  `UPDATE posts SET is_pinned = 0 WHERE
is_pinned = 1` clears every set flag; the second UPDATE targets `id =
postId` (affecting no row when the id does not exist — the handler never
checks existence). -/
def handleTogglePin (db : List PostRow) (postId : String)
    (is_pinnedField : Option Bool) : List PostRow × PinResponse :=
  match is_pinnedField with
  | none => (db, .badRequest "is_pinned must be a boolean")
  | some isPinned =>
    let db1 :=
      if isPinned then
        db.map (fun p => if p.is_pinned then { p with is_pinned := false } else p)
      else db
    let db2 := db1.map (fun p => if p.id = postId then { p with is_pinned := isPinned } else p)
    (db2, .success isPinned)

/-! Part 6 of the embedding: likes. -/

/-- A row of the `likes` table (the surrogate `id` and `created_at`
columns are never read by the handlers and are omitted). -/
structure LikeRow where
  post_id : String
  ip_hash : String
deriving DecidableEq

/-- The relational state the like handler touches. -/
structure BlogDB where
  posts : List PostRow
  likes : List LikeRow
deriving DecidableEq

/-- Response of the like handler: `ok` is the 200 body
`{success, likes, liked}`; `notFound` the 404; `serverError` the 500
produced by the surrounding catch block. -/
inductive LikeHttp
  | ok (likes : Nat) (liked : Bool)
  | notFound
  | serverError
deriving DecidableEq

/-- `SELECT COUNT(*) FROM likes WHERE post_id = ?`. -/
def countLikes (likes : List LikeRow) (postId : String) : Nat :=
  (likes.filter (fun l => l.post_id == postId)).length

/-- Lines 869-914 of src/index.js: `handleLike`, sequential execution
(no interleaved writer between the SELECT and the INSERT/DELETE, so no
store operation fails).  Existence check on posts, then toggle of the
`(post_id, ip_hash)` row, then recount. -/
def handleLike (db : BlogDB) (postId ipHash : String) : BlogDB × LikeHttp :=
  if !(db.posts.any (fun p => p.id == postId)) then (db, .notFound)
  else
    let existing := db.likes.any (fun l => l.post_id == postId && l.ip_hash == ipHash)
    let likes2 :=
      if existing then
        db.likes.filter (fun l => !(l.post_id == postId && l.ip_hash == ipHash))
      else db.likes ++ [⟨postId, ipHash⟩]
    ({ db with likes := likes2 }, .ok (countLikes likes2 postId) (!existing))

/-- A D1 statement failure. -/
inductive D1Error
  | uniqueConstraintViolation
  | otherFailure
deriving DecidableEq

/-- Outcomes of the five D1 statements `handleLike` awaits, in source
order: the post SELECT (did a row come back), the like SELECT (ditto),
the DELETE, the INSERT, and the COUNT.  Each is an oracle so that a
statement can be made to fail, exactly as the real store might. -/
structure LikeDbOracle where
  postLookup : Except D1Error Bool
  likeLookup : Except D1Error Bool
  deleteRun : Except D1Error Unit
  insertRun : Except D1Error Unit
  countFirst : Except D1Error Nat

/-- Lines 869-914 of src/index.js: `handleLike` with each awaited D1
statement abstracted as an oracle outcome.  The whole body sits in a
try/catch whose catch returns the 500 response, so any `.error` from an
awaited statement short-circuits to `serverError`. -/
def handleLikeIO (o : LikeDbOracle) : LikeHttp :=
  match o.postLookup with
  | .error _ => .serverError
  | .ok false => .notFound
  | .ok true =>
    match o.likeLookup with
    | .error _ => .serverError
    | .ok existing =>
      match (if existing then o.deleteRun else o.insertRun) with
      | .error _ => .serverError
      | .ok _ =>
        match o.countFirst with
        | .error _ => .serverError
        | .ok count => .ok count (!existing)

/-- Environment whose rate-limit namespace holds the single counter
entry `k` for client `ip`, as produced by `k` consecutive allowed calls
at time `now` (proof-side abbreviation for stating the window
invariant). -/
def rlEnv (env : Env) (ip : String) (k now : Nat) : Env :=
  { env with RATE_LIMIT_KV := some ⟨true, [("ratelimit:" ++ ip, ⟨toString k, now + 3600⟩)]⟩ }


/-! Supporting lemmas for the post-id format: the padded decimal pieces
spelled out as digit characters, and monotonicity of the digit map. -/

theorem padStart_toString_two : ∀ m : Nat, m < 100 →
    padStart (toString m) 2 '0' = ⟨twoDigitChars m⟩ := by decide

theorem digitChar_lt_digitChar : ∀ a : Nat, a < 10 → ∀ b : Nat, b < 10 → a < b →
    Nat.digitChar a < Nat.digitChar b := by decide

theorem digitChar_isDigit : ∀ d : Nat, d < 10 → (Nat.digitChar d).isDigit = true := by decide

theorem toDigitsCore_step (f n : Nat) (l : List Char) :
    Nat.toDigitsCore 10 (f + 1) n l =
      if n / 10 = 0 then Nat.digitChar (n % 10) :: l
      else Nat.toDigitsCore 10 f (n / 10) (Nat.digitChar (n % 10) :: l) := rfl

theorem toDigitsCore_four_digits (f n : Nat) (l : List Char)
    (hlo : 1000 ≤ n) (hhi : n ≤ 9999) :
    Nat.toDigitsCore 10 (f + 4) n l =
      Nat.digitChar (n / 1000 % 10) :: Nat.digitChar (n / 100 % 10) ::
        Nat.digitChar (n / 10 % 10) :: Nat.digitChar (n % 10) :: l := by
  rw [show f + 4 = (f + 3) + 1 from rfl, toDigitsCore_step,
    if_neg (show ¬ n / 10 = 0 by omega)]
  rw [show f + 3 = (f + 2) + 1 from rfl, toDigitsCore_step,
    if_neg (show ¬ n / 10 / 10 = 0 by omega)]
  rw [show f + 2 = (f + 1) + 1 from rfl, toDigitsCore_step,
    if_neg (show ¬ n / 10 / 10 / 10 = 0 by omega)]
  rw [toDigitsCore_step, if_pos (show n / 10 / 10 / 10 / 10 = 0 by omega)]
  rw [show n / 10 / 10 = n / 100 by omega, show n / 100 / 10 = n / 1000 by omega]

theorem toString_year (y : Nat) (h1 : 1000 ≤ y) (h2 : y ≤ 9999) :
    (toString y).data = twoDigitChars (y / 100) ++ twoDigitChars (y % 100) := by
  obtain ⟨f, hf⟩ : ∃ f, y + 1 = f + 4 := ⟨y - 3, by omega⟩
  have hns : (toString y).data = Nat.toDigitsCore 10 (y + 1) y [] := rfl
  rw [hns, hf, toDigitsCore_four_digits f y [] h1 h2]
  simp only [twoDigitChars, List.cons_append, List.nil_append]
  rw [show y / 1000 % 10 = y / 100 / 10 by omega,
    show y / 10 % 10 = y % 100 / 10 by omega,
    show y % 10 = y % 100 % 10 by omega]

theorem twoDigit_lex_lt {a b : Nat} (ha : a < 100) (hb : b < 100) (h : a < b)
    (as bs : List Char) :
    List.Lex (· < ·) (Nat.digitChar (a / 10) :: Nat.digitChar (a % 10) :: as)
      (Nat.digitChar (b / 10) :: Nat.digitChar (b % 10) :: bs) := by
  rcases Nat.lt_or_ge (a / 10) (b / 10) with h1 | h1
  · exact List.Lex.rel (digitChar_lt_digitChar _ (by omega) _ (by omega) h1)
  · have he : a / 10 = b / 10 := by omega
    have h2 : a % 10 < b % 10 := by omega
    rw [he]
    exact List.Lex.cons (List.Lex.rel (digitChar_lt_digitChar _ (by omega) _ (by omega) h2))

theorem generatePostId_data (d : JSDate) (hv : d.Valid) :
    (generatePostId d).data =
      twoDigitChars (d.getFullYear / 100) ++ twoDigitChars (d.getFullYear % 100) ++
      twoDigitChars (d.getMonth + 1) ++ twoDigitChars d.getDate ++
      twoDigitChars d.getHours ++ twoDigitChars d.getMinutes ++ twoDigitChars d.getSeconds := by
  obtain ⟨h1, h2, h3, h4, h5, h6, h7, h8⟩ := hv
  simp only [generatePostId]
  rw [padStart_toString_two (d.getMonth + 1) (by omega),
    padStart_toString_two d.getDate (by omega),
    padStart_toString_two d.getHours (by omega),
    padStart_toString_two d.getMinutes (by omega),
    padStart_toString_two d.getSeconds (by omega),
    ]
  simp only [String.data_append]
  rw [toString_year d.getFullYear h1 h2]

theorem generatePostId_digits (d : JSDate) (hv : d.Valid) :
    (generatePostId d).length = 14 ∧ ∀ c ∈ (generatePostId d).data, c.isDigit = true := by
  have hd := generatePostId_data d hv
  obtain ⟨h1, h2, h3, h4, h5, h6, h7, h8⟩ := hv
  constructor
  · have hl : (generatePostId d).length = (generatePostId d).data.length := rfl
    rw [hl, hd]; simp [twoDigitChars]
  · rw [hd]
    intro c hc
    simp only [twoDigitChars, List.mem_append, List.mem_cons, List.not_mem_nil, or_false] at hc
    rcases hc with ((((((rfl | rfl) | (rfl | rfl)) | (rfl | rfl)) | (rfl | rfl)) | (rfl | rfl)) | (rfl | rfl)) | (rfl | rfl) <;>
      exact digitChar_isDigit _ (by omega)

theorem generatePostId_mono (d1 d2 : JSDate) (hv1 : d1.Valid) (hv2 : d2.Valid)
    (hk : d1.key ≤ d2.key) : generatePostId d1 ≤ generatePostId d2 := by
  rw [String.le_iff_toList_le]
  show (generatePostId d1).data ≤ (generatePostId d2).data
  rw [generatePostId_data d1 hv1, generatePostId_data d2 hv2]
  obtain ⟨a1, a2, a3, a4, a5, a6, a7, a8⟩ := hv1
  obtain ⟨b1, b2, b3, b4, b5, b6, b7, b8⟩ := hv2
  simp only [JSDate.key] at hk
  simp only [twoDigitChars, List.cons_append, List.nil_append]
  have tri : d1.getFullYear / 100 < d2.getFullYear / 100
      ∨ (d1.getFullYear / 100 = d2.getFullYear / 100 ∧ (d1.getFullYear % 100 < d2.getFullYear % 100
      ∨ (d1.getFullYear % 100 = d2.getFullYear % 100 ∧ (d1.getMonth + 1 < d2.getMonth + 1
      ∨ (d1.getMonth + 1 = d2.getMonth + 1 ∧ (d1.getDate < d2.getDate
      ∨ (d1.getDate = d2.getDate ∧ (d1.getHours < d2.getHours
      ∨ (d1.getHours = d2.getHours ∧ (d1.getMinutes < d2.getMinutes
      ∨ (d1.getMinutes = d2.getMinutes ∧ (d1.getSeconds < d2.getSeconds
      ∨ d1.getSeconds = d2.getSeconds)))))))))))) := by omega
  rcases tri with h | ⟨e1, h⟩
  · exact le_of_lt (twoDigit_lex_lt (by omega) (by omega) h _ _)
  rw [e1]
  rcases h with h | ⟨e2, h⟩
  · exact le_of_lt (List.Lex.cons (List.Lex.cons (twoDigit_lex_lt (by omega) (by omega) h _ _)))
  rw [e2]
  rcases h with h | ⟨e3, h⟩
  · exact le_of_lt (List.Lex.cons (List.Lex.cons (List.Lex.cons (List.Lex.cons
      (twoDigit_lex_lt (by omega) (by omega) h _ _)))))
  rw [e3]
  rcases h with h | ⟨e4, h⟩
  · exact le_of_lt (List.Lex.cons (List.Lex.cons (List.Lex.cons (List.Lex.cons
      (List.Lex.cons (List.Lex.cons (twoDigit_lex_lt (by omega) (by omega) h _ _)))))))
  rw [e4]
  rcases h with h | ⟨e5, h⟩
  · exact le_of_lt (List.Lex.cons (List.Lex.cons (List.Lex.cons (List.Lex.cons
      (List.Lex.cons (List.Lex.cons (List.Lex.cons (List.Lex.cons
      (twoDigit_lex_lt (by omega) (by omega) h _ _)))))))))
  rw [e5]
  rcases h with h | ⟨e6, h⟩
  · exact le_of_lt (List.Lex.cons (List.Lex.cons (List.Lex.cons (List.Lex.cons
      (List.Lex.cons (List.Lex.cons (List.Lex.cons (List.Lex.cons (List.Lex.cons
      (List.Lex.cons (twoDigit_lex_lt (by omega) (by omega) h _ _)))))))))))
  rw [e6]
  rcases h with h | e7
  · exact le_of_lt (List.Lex.cons (List.Lex.cons (List.Lex.cons (List.Lex.cons
      (List.Lex.cons (List.Lex.cons (List.Lex.cons (List.Lex.cons (List.Lex.cons
      (List.Lex.cons (List.Lex.cons (List.Lex.cons
      (twoDigit_lex_lt (by omega) (by omega) h _ _)))))))))))))
  rw [e7]

theorem generateUniquePostId_spec (db : List String) (clock : Nat → JSDate)
    (k fuel : Nat) (id : String) (h : generateUniquePostId db clock k fuel = some id) :
    id ∉ db ∧ ∃ j, id = generatePostId (clock j) := by
  induction fuel generalizing k with
  | zero => simp [generateUniquePostId] at h
  | succ n ih =>
    rw [generateUniquePostId] at h
    by_cases hm : generatePostId (clock k) ∈ db
    · rw [if_pos hm] at h
      exact ih (k + 1) h
    · rw [if_neg hm] at h
      cases h
      exact ⟨hm, k, rfl⟩

/-- C5: every identifier the clock format produces for a real wall-clock
reading is exactly 14 digit characters; identifiers generated at
chronologically ordered readings are lexicographically non-decreasing;
and generateUniquePostId returns a candidate only when the repository
existence check found no post with that identifier, otherwise retrying
with the next one-second clock reading. -/
theorem postIdAllocator_correct :
    (∀ d : JSDate, d.Valid →
        (generatePostId d).length = 14 ∧ ∀ c ∈ (generatePostId d).data, c.isDigit = true)
    ∧ (∀ d1 d2 : JSDate, d1.Valid → d2.Valid → d1.key ≤ d2.key →
        generatePostId d1 ≤ generatePostId d2)
    ∧ (∀ (db : List String) (clock : Nat → JSDate) (k fuel : Nat) (id : String),
        generateUniquePostId db clock k fuel = some id →
        id ∉ db ∧ ∃ j, id = generatePostId (clock j)) :=
  ⟨fun d hv => generatePostId_digits d hv,
   fun d1 d2 h1 h2 hk => generatePostId_mono d1 d2 h1 h2 hk,
   fun db clock k fuel id h => generateUniquePostId_spec db clock k fuel id h⟩

/-- C5 witness: a concrete reading gives a 14-character id, a
one-second-later reading gives a lexicographically larger id, and a
concrete allocation that collides once returns the next second's id,
which is not in the repository. -/
theorem postIdAllocator_correct_witness :
    (generatePostId ⟨2025, 9, 12, 8, 30, 0⟩).length = 14
    ∧ generatePostId ⟨2025, 9, 12, 8, 30, 0⟩ ≤ generatePostId ⟨2025, 9, 12, 8, 30, 1⟩
    ∧ "20251012083001" ∉ ["20251012083000"] :=
  ⟨(postIdAllocator_correct.1 ⟨2025, 9, 12, 8, 30, 0⟩ (by decide)).1,
   postIdAllocator_correct.2.1 ⟨2025, 9, 12, 8, 30, 0⟩ ⟨2025, 9, 12, 8, 30, 1⟩
     (by decide) (by decide) (by decide),
   (postIdAllocator_correct.2.2 ["20251012083000"]
      (fun j => if j = 0 then ⟨2025, 9, 12, 8, 30, 0⟩ else ⟨2025, 9, 12, 8, 30, 1⟩) 0 2
      "20251012083001" (by decide)).1⟩


/-! Theorems about the rate limiter, the fetch gate, the authorization gate, pinning, and likes. -/

theorem parse_toString : ∀ k : Nat, k ≤ 101 →
    parseInt (toString k) = k ∧ (toString k == "") = false := by decide

theorem checkRateLimit_fresh (ip : String) (env : Env) (now : Nat)
    (h : env.RATE_LIMIT_KV = some ⟨true, []⟩) :
    checkRateLimit ip env now = .ok (true, rlEnv env ip 1 now) := by
  simp [checkRateLimit, h, KVNamespace.get, KVNamespace.put, truthy, optParseInt,
    List.lookup, rlEnv]

theorem checkRateLimit_count (ip : String) (env : Env) (now k : Nat)
    (hk1 : 1 ≤ k) (hk2 : k ≤ 100) :
    checkRateLimit ip (rlEnv env ip k now) now = .ok (true, rlEnv env ip (k + 1) now) := by
  have pt := parse_toString k (by omega)
  have hlt : now < now + 3600 := by omega
  have hng : ¬ (100 < k) := by omega
  simp [checkRateLimit, rlEnv, KVNamespace.get, KVNamespace.put, truthy, optParseInt,
    List.lookup, pt.1, pt.2, hlt, hng]

theorem checkRateLimit_101 (ip : String) (env : Env) (now : Nat) :
    checkRateLimit ip (rlEnv env ip 101 now) now = .ok (false, rlEnv env ip 101 now) := by
  have pt := parse_toString 101 (by omega)
  have hlt : now < now + 3600 := by omega
  simp [checkRateLimit, rlEnv, KVNamespace.get, truthy, optParseInt, List.lookup,
    pt.1, pt.2, hlt]

theorem runCalls_rejected (ip : String) (now : Nat) : ∀ (n : Nat) (env : Env),
    (runCalls ip now n (rlEnv env ip 101 now)).1 = List.replicate n false := by
  intro n
  induction n with
  | zero => intro env; rfl
  | succ m ih =>
    intro env
    rw [runCalls, checkRateLimit_101 ip env now]
    simp [ih env, List.replicate_succ]

theorem runCalls_from (ip : String) (now : Nat) : ∀ (m k : Nat) (env : Env),
    1 ≤ k → k ≤ 101 →
    (runCalls ip now m (rlEnv env ip k now)).1 =
      (List.range m).map (fun j => decide (k + j < 101)) := by
  intro m
  induction m with
  | zero => intro k env _ _; rfl
  | succ m ih =>
    intro k env hk1 hk2
    rcases Nat.lt_or_ge k 101 with hlt | hge
    · rw [runCalls, checkRateLimit_count ip env now k hk1 (by omega)]
      have tail := ih (k + 1) env (by omega) (by omega)
      simp only [tail]
      rw [List.range_succ_eq_map]
      simp only [List.map_cons, List.map_map]
      congr 1
      · exact (decide_eq_true (by omega : k + 0 < 101)).symm
      · refine List.map_congr_left fun j hj => ?hjj
        simp only [Function.comp_apply]
        exact decide_eq_decide.mpr (by omega)
    · have hk : k = 101 := by omega
      subst hk
      rw [runCalls, checkRateLimit_101 ip env now]
      simp only [runCalls_rejected ip now m env]
      have hall : ∀ j ∈ List.range (m + 1), (fun j => decide (101 + j < 101)) j = false := by
        intro j _; simp
      rw [List.map_congr_left hall]
      simp [List.replicate_succ]

theorem runCalls_fresh (ip : String) (now : Nat) (n : Nat) (env : Env)
    (h : env.RATE_LIMIT_KV = some ⟨true, []⟩) :
    (runCalls ip now n env).1 = (List.range n).map (fun j => decide (j < 101)) := by
  cases n with
  | zero => rfl
  | succ m =>
    rw [runCalls, checkRateLimit_fresh ip env now h]
    have tail := runCalls_from ip now m 1 env (by omega) (by omega)
    simp only [tail]
    rw [List.range_succ_eq_map]
    simp only [List.map_cons, List.map_map]
    congr 1
    · refine List.map_congr_left fun j hj => ?hjj
      simp only [Function.comp_apply]
      exact decide_eq_decide.mpr (by omega)

theorem checkRateLimit_noWrite (ip : String) (env : Env) (now : Nat) (env2 : Env)
    (h : checkRateLimit ip env now = .ok (false, env2)) : env2 = env := by
  cases henv : env.RATE_LIMIT_KV with
  | none => simp [checkRateLimit, henv] at h
  | some kv =>
    cases hget : kv.get ("ratelimit:" ++ ip) now with
    | error e => simp [checkRateLimit, henv, hget] at h
    | ok count =>
      by_cases hc : (truthy count && decide (optParseInt count > 100)) = true
      · simp only [checkRateLimit, henv, hget, hc, if_true] at h
        simp at h
        exact h.symm
      · cases hput : kv.put ("ratelimit:" ++ ip)
          (toString (if truthy count then optParseInt count + 1 else 1)) 3600 now with
        | error e => simp [checkRateLimit, henv, hget, hc, hput] at h
        | ok kv2 => simp [checkRateLimit, henv, hget, hc, hput] at h

theorem fetchGate_blocked (req : Request) (env : Env) (now : Nat)
    (hp : req.pathname ≠ "/robots.txt")
    (hb : isBlockedBot (req.userAgent.getD "") = true) :
    fetchGate req env now = .response ⟨403, "Access denied", none⟩ := by
  simp [fetchGate, hp, hb]

theorem fetchGate_rateLimited (req : Request) (env : Env) (now : Nat) (env2 : Env)
    (hp : req.pathname ≠ "/robots.txt")
    (hb : isBlockedBot (req.userAgent.getD "") = false)
    (hr : checkRateLimit (req.ip.getD "unknown") env now = .ok (false, env2)) :
    fetchGate req env now = .response ⟨429, "Too many requests", some "3600"⟩ := by
  simp [fetchGate, hp, hb, hr]

theorem fetchGate_proceed (req : Request) (env : Env) (now : Nat) (env2 : Env)
    (h : fetchGate req env now = .proceed env2) :
    req.pathname ≠ "/robots.txt" ∧ isBlockedBot (req.userAgent.getD "") = false ∧
      checkRateLimit (req.ip.getD "unknown") env now = .ok (true, env2) := by
  by_cases hp : req.pathname = "/robots.txt"
  · simp [fetchGate, hp] at h
  · cases hb : isBlockedBot (req.userAgent.getD "") with
    | true => simp [fetchGate, hp, hb] at h
    | false =>
      cases hr : checkRateLimit (req.ip.getD "unknown") env now with
      | error e => simp [fetchGate, hp, hb, hr] at h
      | ok p =>
        match p, hr with
        | (allowed, env3), hr =>
          cases allowed with
          | false => simp [fetchGate, hp, hb, hr] at h
          | true =>
            simp [fetchGate, hp, hb, hr] at h
            exact ⟨hp, rfl, by rw [h]⟩

/-- C1 (amended): in one fixed window, calls 1 through 101 from the same
client all return allow=true and every call from 102 on returns
allow=false (the code rejects only when the previously stored count
exceeds 100, which first happens on call 102); on rejection the fetch
gate responds 429 with a Retry-After hint of 3600 seconds. -/
theorem rateLimiter_window_quota :
    (∀ (ip : String) (now n : Nat) (env : Env), env.RATE_LIMIT_KV = some ⟨true, []⟩ →
        (runCalls ip now n env).1 = (List.range n).map (fun j => decide (j < 101)))
    ∧ (∀ (req : Request) (env : Env) (now : Nat) (env2 : Env),
        req.pathname ≠ "/robots.txt" → isBlockedBot (req.userAgent.getD "") = false →
        checkRateLimit (req.ip.getD "unknown") env now = .ok (false, env2) →
        fetchGate req env now = .response ⟨429, "Too many requests", some "3600"⟩) :=
  ⟨fun ip now n env h => runCalls_fresh ip now n env h,
   fun req env now env2 hp hb hr => fetchGate_rateLimited req env now env2 hp hb hr⟩

/-- C1 witness: three calls from a fresh window evaluate to the stated
pattern, and a concrete rate-limited request is answered 429 with
Retry-After 3600. -/
theorem rateLimiter_window_quota_witness :
    ((runCalls "1.2.3.4" 0 3 ⟨some ⟨true, []⟩, none, none⟩).1 =
      (List.range 3).map (fun j => decide (j < 101)))
    ∧ fetchGate ⟨"/", none, none, none⟩
        ⟨some ⟨true, [("ratelimit:unknown", ⟨"200", 3600⟩)]⟩, none, none⟩ 0 =
        .response ⟨429, "Too many requests", some "3600"⟩ :=
  ⟨rateLimiter_window_quota.1 "1.2.3.4" 0 3 ⟨some ⟨true, []⟩, none, none⟩ (by decide),
   rateLimiter_window_quota.2 ⟨"/", none, none, none⟩
     ⟨some ⟨true, [("ratelimit:unknown", ⟨"200", 3600⟩)]⟩, none, none⟩ 0
     ⟨some ⟨true, [("ratelimit:unknown", ⟨"200", 3600⟩)]⟩, none, none⟩
     (by decide) (by decide) (by decide)⟩

/-- C1 counterexample: from a fresh window the 101st call still returns
allow=true (and the 102nd is the first rejected one), contradicting the
claim that call 101 returns allow=false. -/
theorem rateLimiter_call101_allowed :
    (runCalls "1.2.3.4" 0 102 ⟨some ⟨true, []⟩, none, none⟩).1.drop 100 = [true, false] := by
  decide

/-- C7 (amended): with no RATE_LIMIT_KV binding configured,
checkRateLimit allows every request (fails open); but with a configured
store that is unavailable, the failure propagates out of checkRateLimit
instead of the limiter failing open. -/
theorem rateLimiter_failOpen_unconfigured :
    (∀ (ip : String) (env : Env) (now : Nat), env.RATE_LIMIT_KV = none →
        checkRateLimit ip env now = .ok (true, env))
    ∧ (∀ (ip : String) (env : Env) (now : Nat) (kv : KVNamespace String),
        env.RATE_LIMIT_KV = some kv → kv.available = false →
        checkRateLimit ip env now = .error .unavailable) := by
  constructor
  · intro ip env now h
    simp [checkRateLimit, h]
  · intro ip env now kv h ha
    simp [checkRateLimit, h, KVNamespace.get, ha]

/-- C7 witness: an unconfigured limiter allows a concrete request, and a
concrete unavailable store makes the check fail. -/
theorem rateLimiter_failOpen_unconfigured_witness :
    checkRateLimit "9.9.9.9" ⟨none, none, none⟩ 5 = .ok (true, ⟨none, none, none⟩)
    ∧ checkRateLimit "9.9.9.9" ⟨some ⟨false, []⟩, none, none⟩ 5 = .error .unavailable :=
  ⟨rateLimiter_failOpen_unconfigured.1 "9.9.9.9" ⟨none, none, none⟩ 5 rfl,
   rateLimiter_failOpen_unconfigured.2 "9.9.9.9" ⟨some ⟨false, []⟩, none, none⟩ 5
     ⟨false, []⟩ rfl rfl⟩

/-- C7 counterexample: with the rate-limit store configured but
unavailable, checkRateLimit produces no allow decision at all — the
failure propagates — rather than returning allow=true as the claim
states for an unavailable store. -/
theorem rateLimiter_unavailable_blocks :
    checkRateLimit "1.2.3.4" ⟨some ⟨false, []⟩, none, none⟩ 0 = .error .unavailable
    ∧ (checkRateLimit "1.2.3.4" ⟨some ⟨false, []⟩, none, none⟩ 0).toOption = none := by
  decide

/-- C8 (amended): for every request whose path is not /robots.txt, both
gate checks run before any route handler: a blocked User-Agent is denied
with 403, a rate-limited client receives 429 with Retry-After 3600, and
routing proceeds only when the request passed the bot filter and the rate
limiter.  The /robots.txt path is served before either check. -/
theorem gate_checks_run_first :
    (∀ (req : Request) (env : Env) (now : Nat), req.pathname ≠ "/robots.txt" →
        isBlockedBot (req.userAgent.getD "") = true →
        fetchGate req env now = .response ⟨403, "Access denied", none⟩)
    ∧ (∀ (req : Request) (env : Env) (now : Nat) (env2 : Env),
        req.pathname ≠ "/robots.txt" → isBlockedBot (req.userAgent.getD "") = false →
        checkRateLimit (req.ip.getD "unknown") env now = .ok (false, env2) →
        fetchGate req env now = .response ⟨429, "Too many requests", some "3600"⟩)
    ∧ (∀ (req : Request) (env : Env) (now : Nat) (env2 : Env),
        fetchGate req env now = .proceed env2 →
        req.pathname ≠ "/robots.txt" ∧ isBlockedBot (req.userAgent.getD "") = false ∧
          checkRateLimit (req.ip.getD "unknown") env now = .ok (true, env2)) :=
  ⟨fun req env now hp hb => fetchGate_blocked req env now hp hb,
   fun req env now env2 hp hb hr => fetchGate_rateLimited req env now env2 hp hb hr,
   fun req env now env2 h => fetchGate_proceed req env now env2 h⟩

/-- C8 witness: a blocked crawler on an ordinary path is denied with
403; an ordinary request that passes both checks proceeds into routing. -/
theorem gate_checks_run_first_witness :
    fetchGate ⟨"/", some "GPTBot/1.0", none, none⟩ ⟨none, none, none⟩ 0 =
      .response ⟨403, "Access denied", none⟩
    ∧ ((⟨"/", none, none, none⟩ : Request).pathname ≠ "/robots.txt"
        ∧ isBlockedBot ((⟨"/", none, none, none⟩ : Request).userAgent.getD "") = false
        ∧ checkRateLimit ((⟨"/", none, none, none⟩ : Request).ip.getD "unknown")
            ⟨none, none, none⟩ 7 = .ok (true, ⟨none, none, none⟩)) :=
  ⟨gate_checks_run_first.1 ⟨"/", some "GPTBot/1.0", none, none⟩ ⟨none, none, none⟩ 0
     (by decide) (by decide),
   gate_checks_run_first.2.2 ⟨"/", none, none, none⟩ ⟨none, none, none⟩ 7
     ⟨none, none, none⟩ (by decide)⟩

/-- C8 counterexample: a request for /robots.txt carrying a blocked bot
User-Agent is served by the robots.txt handler — neither denied with 403
nor rate limited — so the two filters do not run for every path. -/
theorem gate_robots_bypasses_checks :
    fetchGate ⟨"/robots.txt", some "GPTBot/1.0", some "1.2.3.4", none⟩
      ⟨some ⟨true, []⟩, none, none⟩ 0 = .robotsTxt
    ∧ isBlockedBot "GPTBot/1.0" = true := by
  decide

/-- C10: whenever checkRateLimit returns allow=false it performs no
write: the environment, and with it the stored count and expiry for the
client, is returned unchanged. -/
theorem rateLimiter_reject_noWrite (ip : String) (env : Env) (now : Nat) (env2 : Env)
    (h : checkRateLimit ip env now = .ok (false, env2)) : env2 = env :=
  checkRateLimit_noWrite ip env now env2 h

/-- C10 witness: a concrete client over quota is rejected and the
environment is returned exactly as it was. -/
theorem rateLimiter_reject_noWrite_witness :
    checkRateLimit "1.2.3.4" ⟨some ⟨true, [("ratelimit:1.2.3.4", ⟨"200", 3600⟩)]⟩, none, none⟩ 0 =
      .ok (false, ⟨some ⟨true, [("ratelimit:1.2.3.4", ⟨"200", 3600⟩)]⟩, none, none⟩)
    ∧ (⟨some ⟨true, [("ratelimit:1.2.3.4", ⟨"200", 3600⟩)]⟩, none, none⟩ : Env) =
      ⟨some ⟨true, [("ratelimit:1.2.3.4", ⟨"200", 3600⟩)]⟩, none, none⟩ :=
  ⟨by decide,
   rateLimiter_reject_noWrite "1.2.3.4"
     ⟨some ⟨true, [("ratelimit:1.2.3.4", ⟨"200", 3600⟩)]⟩, none, none⟩ 0
     ⟨some ⟨true, [("ratelimit:1.2.3.4", ⟨"200", 3600⟩)]⟩, none, none⟩ (by decide)⟩

theorem isAuthenticated_noToken (req : Request) (env : Env) (now : Nat)
    (h : getSessionFromCookie req = none) : isAuthenticated req env now = .ok false := by
  simp [isAuthenticated, h]

theorem isAuthenticated_missingSession (req : Request) (env : Env) (now : Nat)
    (sid : String) (kv : KVNamespace Session)
    (hc : getSessionFromCookie req = some sid)
    (hkv : env.SESSION_KV = some kv)
    (hget : kv.get ("session:" ++ sid) now = .ok none) :
    isAuthenticated req env now = .ok false := by
  have hges : getSession env sid now = .ok none := by
    unfold getSession
    rw [hkv]
    by_cases hs : (sid == "") = true
    · simp [hs]
    · simp [hs, hget]
  simp [isAuthenticated, hc, hges]

theorem isAuthenticated_wrongEmail (req : Request) (env : Env) (now : Nat)
    (sid allowed : String) (s : Session)
    (hc : getSessionFromCookie req = some sid)
    (hs : getSession env sid now = .ok (some s))
    (ha : env.ALLOWED_EMAIL = some allowed)
    (hne : s.email ≠ allowed) :
    isAuthenticated req env now = .ok false := by
  simp [isAuthenticated, hc, hs, ha, hne]

theorem isAuthenticated_noAllowList (req : Request) (env : Env) (now : Nat)
    (sid : String) (s : Session)
    (hc : getSessionFromCookie req = some sid)
    (hs : getSession env sid now = .ok (some s))
    (ha : env.ALLOWED_EMAIL = none) :
    isAuthenticated req env now = .ok true := by
  simp [isAuthenticated, hc, hs, ha]

/-- C6: the authorization gate denies a request with no session token,
denies a token whose store lookup misses (nonexistent or expired — the
store model returns nothing once `now` reaches the expiry), denies a
valid session whose email differs from the configured allow-listed
address, and authorizes any valid session when no allow-list is
configured. -/
theorem accessGate_decisions :
    (∀ (req : Request) (env : Env) (now : Nat), getSessionFromCookie req = none →
        isAuthenticated req env now = .ok false)
    ∧ (∀ (req : Request) (env : Env) (now : Nat) (sid : String) (kv : KVNamespace Session),
        getSessionFromCookie req = some sid → env.SESSION_KV = some kv →
        kv.get ("session:" ++ sid) now = .ok none →
        isAuthenticated req env now = .ok false)
    ∧ (∀ (req : Request) (env : Env) (now : Nat) (sid allowed : String) (s : Session),
        getSessionFromCookie req = some sid → getSession env sid now = .ok (some s) →
        env.ALLOWED_EMAIL = some allowed → s.email ≠ allowed →
        isAuthenticated req env now = .ok false)
    ∧ (∀ (req : Request) (env : Env) (now : Nat) (sid : String) (s : Session),
        getSessionFromCookie req = some sid → getSession env sid now = .ok (some s) →
        env.ALLOWED_EMAIL = none →
        isAuthenticated req env now = .ok true) :=
  ⟨fun req env now h => isAuthenticated_noToken req env now h,
   fun req env now sid kv hc hkv hget =>
     isAuthenticated_missingSession req env now sid kv hc hkv hget,
   fun req env now sid allowed s hc hs ha hne =>
     isAuthenticated_wrongEmail req env now sid allowed s hc hs ha hne,
   fun req env now sid s hc hs ha => isAuthenticated_noAllowList req env now sid s hc hs ha⟩

/-- C6 witness: concrete denials for a cookieless request, an expired
session entry, and an email mismatch, and a concrete authorization with
no allow-list configured. -/
theorem accessGate_decisions_witness :
    isAuthenticated ⟨"/admin", none, none, none⟩ ⟨none, none, none⟩ 0 = .ok false
    ∧ isAuthenticated ⟨"/admin", none, none, some "session=tok"⟩
        ⟨none, some ⟨true, [("session:tok", ⟨⟨"a@b.c", "n", "p"⟩, 50⟩)]⟩, none⟩ 100 = .ok false
    ∧ isAuthenticated ⟨"/admin", none, none, some "session=tok"⟩
        ⟨none, some ⟨true, [("session:tok", ⟨⟨"evil@x.y", "n", "p"⟩, 900⟩)]⟩, some "a@b.c"⟩ 100 =
        .ok false
    ∧ isAuthenticated ⟨"/admin", none, none, some "session=tok"⟩
        ⟨none, some ⟨true, [("session:tok", ⟨⟨"anyone@x.y", "n", "p"⟩, 900⟩)]⟩, none⟩ 100 =
        .ok true :=
  ⟨accessGate_decisions.1 ⟨"/admin", none, none, none⟩ ⟨none, none, none⟩ 0 (by decide),
   accessGate_decisions.2.1 ⟨"/admin", none, none, some "session=tok"⟩
     ⟨none, some ⟨true, [("session:tok", ⟨⟨"a@b.c", "n", "p"⟩, 50⟩)]⟩, none⟩ 100 "tok"
     ⟨true, [("session:tok", ⟨⟨"a@b.c", "n", "p"⟩, 50⟩)]⟩ (by decide) (by decide) (by decide),
   accessGate_decisions.2.2.1 ⟨"/admin", none, none, some "session=tok"⟩
     ⟨none, some ⟨true, [("session:tok", ⟨⟨"evil@x.y", "n", "p"⟩, 900⟩)]⟩, some "a@b.c"⟩ 100
     "tok" "a@b.c" ⟨"evil@x.y", "n", "p"⟩ (by decide) (by decide) (by decide) (by decide),
   accessGate_decisions.2.2.2 ⟨"/admin", none, none, some "session=tok"⟩
     ⟨none, some ⟨true, [("session:tok", ⟨⟨"anyone@x.y", "n", "p"⟩, 900⟩)]⟩, none⟩ 100
     "tok" ⟨"anyone@x.y", "n", "p"⟩ (by decide) (by decide) (by decide)⟩

theorem handleTogglePin_true_eq (db : List PostRow) (postId : String) :
    (handleTogglePin db postId (some true)).1 =
      db.map (fun p => if p.id = postId then ⟨p.id, p.content, true⟩ else ⟨p.id, p.content, false⟩) := by
  simp only [handleTogglePin, if_true, List.map_map]
  refine List.map_congr_left fun p _ => ?hp
  obtain ⟨pid, pc, pp⟩ := p
  by_cases hid : pid = postId <;> cases pp <;> simp [hid]

theorem handleTogglePin_true_resp (db : List PostRow) (postId : String) :
    (handleTogglePin db postId (some true)).2 = .success true := rfl

/-- C2: one call of the pin handler with pinned=true on an existing post
B leaves exactly one pinned post, namely B, whatever was pinned before:
the handler clears every pin and then sets the one on B. -/
theorem pin_single_invariant (db : List PostRow) (postId : String)
    (hnd : (db.map (fun p => p.id)).Nodup) (hmem : postId ∈ db.map (fun p => p.id)) :
    (handleTogglePin db postId (some true)).2 = .success true
    ∧ (handleTogglePin db postId (some true)).1.countP (fun p => p.is_pinned) = 1
    ∧ ∀ p ∈ (handleTogglePin db postId (some true)).1, (p.is_pinned = true ↔ p.id = postId) := by
  refine ⟨handleTogglePin_true_resp db postId, ?hcount, ?hiff⟩
  · rw [handleTogglePin_true_eq, List.countP_map]
    have hpred : ((fun p : PostRow => p.is_pinned) ∘
        (fun p : PostRow => if p.id = postId then ⟨p.id, p.content, true⟩ else ⟨p.id, p.content, false⟩)) =
        (fun p : PostRow => p.id == postId) := by
      funext p
      by_cases hid : p.id = postId <;> simp [hid]
    rw [hpred]
    have hc := List.count_eq_one_of_mem hnd hmem
    rw [List.count, List.countP_map] at hc
    convert hc using 2
  · rw [handleTogglePin_true_eq]
    intro p hp
    rw [List.mem_map] at hp
    obtain ⟨q, hq, rfl⟩ := hp
    by_cases hid : q.id = postId <;> simp [hid]

/-- C2 witness: pinning existing post B while A is pinned yields exactly
one pinned post, B. -/
theorem pin_single_invariant_witness :
    (handleTogglePin [⟨"A", "a", true⟩, ⟨"B", "b", false⟩] "B" (some true)).2 = .success true
    ∧ (handleTogglePin [⟨"A", "a", true⟩, ⟨"B", "b", false⟩] "B" (some true)).1.countP
        (fun p => p.is_pinned) = 1
    ∧ ∀ p ∈ (handleTogglePin [⟨"A", "a", true⟩, ⟨"B", "b", false⟩] "B" (some true)).1,
        (p.is_pinned = true ↔ p.id = "B") :=
  pin_single_invariant [⟨"A", "a", true⟩, ⟨"B", "b", false⟩] "B" (by decide) (by decide)

/-- C9: the pin handler performs no existence check: called with
pinned=true on an id that matches no post it still reports success,
clears every existing pin, and leaves zero posts pinned. -/
theorem pin_missing_id_success (db : List PostRow) (postId : String)
    (hmem : postId ∉ db.map (fun p => p.id)) :
    (handleTogglePin db postId (some true)).2 = .success true
    ∧ ∀ p ∈ (handleTogglePin db postId (some true)).1, p.is_pinned = false := by
  refine ⟨handleTogglePin_true_resp db postId, ?hall⟩
  rw [handleTogglePin_true_eq]
  intro p hp
  rw [List.mem_map] at hp
  obtain ⟨q, hq, rfl⟩ := hp
  have hid : q.id ≠ postId := by
    intro he
    exact hmem (List.mem_map.mpr ⟨q, hq, he⟩)
  simp [hid]

/-- C9 witness: pinning a nonexistent id succeeds and unpins
everything. -/
theorem pin_missing_id_success_witness :
    (handleTogglePin [⟨"A", "a", true⟩, ⟨"B", "b", false⟩] "C" (some true)).2 = .success true
    ∧ ∀ p ∈ (handleTogglePin [⟨"A", "a", true⟩, ⟨"B", "b", false⟩] "C" (some true)).1,
        p.is_pinned = false :=
  pin_missing_id_success [⟨"A", "a", true⟩, ⟨"B", "b", false⟩] "C" (by decide)

theorem countLikes_append_self (likes : List LikeRow) (postId ipHash : String) :
    countLikes (likes ++ [⟨postId, ipHash⟩]) postId = countLikes likes postId + 1 := by
  simp [countLikes, List.filter_append]

theorem filter_keep_of_any_false (likes : List LikeRow) (postId ipHash : String)
    (h : likes.any (fun l => l.post_id == postId && l.ip_hash == ipHash) = false) :
    likes.filter (fun l => !(l.post_id == postId && l.ip_hash == ipHash)) = likes := by
  rw [List.filter_eq_self]
  intro a ha
  have := (List.any_eq_false.mp h) a ha
  simp [this]

theorem handleLike_insert (db : BlogDB) (postId ipHash : String)
    (hpost : db.posts.any (fun p => p.id == postId) = true)
    (habs : db.likes.any (fun l => l.post_id == postId && l.ip_hash == ipHash) = false) :
    handleLike db postId ipHash =
      ({ db with likes := db.likes ++ [⟨postId, ipHash⟩] },
        .ok (countLikes db.likes postId + 1) true) := by
  unfold handleLike
  rw [hpost, habs]
  simp [countLikes_append_self]

theorem handleLike_delete_back (db : BlogDB) (postId ipHash : String)
    (hpost : db.posts.any (fun p => p.id == postId) = true)
    (habs : db.likes.any (fun l => l.post_id == postId && l.ip_hash == ipHash) = false) :
    handleLike { db with likes := db.likes ++ [⟨postId, ipHash⟩] } postId ipHash =
      (db, .ok (countLikes db.likes postId) false) := by
  unfold handleLike
  dsimp only
  rw [hpost]
  have hex : (db.likes ++ [(⟨postId, ipHash⟩ : LikeRow)]).any
      (fun l => l.post_id == postId && l.ip_hash == ipHash) = true := by
    simp [List.any_append]
  rw [hex]
  rw [List.filter_append, filter_keep_of_any_false db.likes postId ipHash habs]
  simp

/-- C3: like toggling is an involution: from a state where the (post,
token) pair is absent, one toggle reports liked=true with the count
increased by one, and a second toggle restores the original likes table
and count and reports liked=false. -/
theorem like_toggle_involution (db : BlogDB) (postId ipHash : String)
    (hpost : db.posts.any (fun p => p.id == postId) = true)
    (habs : db.likes.any (fun l => l.post_id == postId && l.ip_hash == ipHash) = false) :
    (handleLike db postId ipHash).2 = .ok (countLikes db.likes postId + 1) true
    ∧ (handleLike (handleLike db postId ipHash).1 postId ipHash).2 =
        .ok (countLikes db.likes postId) false
    ∧ (handleLike (handleLike db postId ipHash).1 postId ipHash).1 = db := by
  have h1 := handleLike_insert db postId ipHash hpost habs
  have h2 := handleLike_delete_back db postId ipHash hpost habs
  refine ⟨?ha, ?hb, ?hc⟩
  · rw [h1]
  · rw [h1]
    dsimp only
    rw [h2]
  · rw [h1]
    dsimp only
    rw [h2]

/-- C3 witness: on a post with one unrelated like, toggling twice for a
fresh token first reports liked=true with count 2, then liked=false with
count 1 and the original table restored. -/
theorem like_toggle_involution_witness :
    (handleLike ⟨[⟨"p1", "c", false⟩], [⟨"p1", "zz"⟩]⟩ "p1" "h1").2 = .ok (1 + 1) true
    ∧ (handleLike (handleLike ⟨[⟨"p1", "c", false⟩], [⟨"p1", "zz"⟩]⟩ "p1" "h1").1 "p1" "h1").2 =
        .ok 1 false
    ∧ (handleLike (handleLike ⟨[⟨"p1", "c", false⟩], [⟨"p1", "zz"⟩]⟩ "p1" "h1").1 "p1" "h1").1 =
        ⟨[⟨"p1", "c", false⟩], [⟨"p1", "zz"⟩]⟩ :=
  like_toggle_involution ⟨[⟨"p1", "c", false⟩], [⟨"p1", "zz"⟩]⟩ "p1" "h1" (by decide) (by decide)

/-- C4 (amended): when the like INSERT raises the store uniqueness
violation (a racing duplicate), handleLike does not convert it into an
already-liked success: the error falls into the surrounding catch and the
caller receives the 500 serverError response. -/
theorem like_conflict_surfaces_500 (del : Except D1Error Unit) (cnt : Except D1Error Nat) :
    handleLikeIO ⟨.ok true, .ok false, del, .error .uniqueConstraintViolation, cnt⟩ =
      .serverError := rfl

/-- C4 counterexample: a concrete run whose INSERT raises the
uniqueness-constraint violation answers with the 500 serverError
response, not with an already-liked success body. -/
theorem like_conflict_not_idempotent :
    handleLikeIO ⟨.ok true, .ok false, .ok (), .error .uniqueConstraintViolation, .ok 5⟩ =
      .serverError
    ∧ handleLikeIO ⟨.ok true, .ok false, .ok (), .error .uniqueConstraintViolation, .ok 5⟩ ≠
        .ok 5 true := by
  decide
